import Mathlib

/-!
Verification of the TEASER excel-import zoning and retrofit code.

Shallow embedding of `teaser/examples/e9_building_data_import_from_excel.py`
and `teaser/logic/buildingobjects/buildingphysics/groundfloor.py`.

A pandas cell is modelled by `Cell`: the canonical missing marker `na`
(np.nan after normalization), a numeric value (`num`, modelled as a
rational — the source works with Python floats, and every claim here is
about exact arithmetic identities such as halving, so `ℚ` is the faithful
exact model), or a string (`str`).  A dataframe row is a `Record` whose
fields are the source's columns; the derived columns `RoomCluster`,
`RoomClusterUsage`, `UsageType_Teaser` and `Zone` default to `na` before
the zoning pipeline fills them.  A dataframe is a `List Record`; `idx`
carries the dataframe index used in diagnostics.

Mixed-type arithmetic (adding a string cell to a float cell), which would
raise a `TypeError` in the source, is out of the modelled scope: `Cell.add`
returns the missing marker there, and `nansum` over a column treats
non-numeric cells as missing.  The claims under verification only exercise
numeric and missing cells in arithmetic positions.
-/

inductive Cell where
  | na
  | num (q : ℚ)
  | str (s : String)
deriving DecidableEq, Repr

def Cell.isNa : Cell → Bool
  | Cell.na => true
  | _ => false

def Cell.isStr : Cell → Bool
  | Cell.str _ => true
  | _ => false

/-- Scalar addition of two cells as pandas performs it on float columns:
`nan` propagates. -/
def Cell.add : Cell → Cell → Cell
  | Cell.num a, Cell.num b => Cell.num (a + b)
  | _, _ => Cell.na

/-- The Python comparison `cell == q` for a numeric literal `q`: true only
when the cell holds that number (NaN and strings compare unequal). -/
def cellEqNum (c : Cell) (q : ℚ) : Bool :=
  match c with
  | Cell.num x => x == q
  | _ => false

/-- Value of a cell inside `np.nansum`: missing counts as 0. -/
def cellNum0 : Cell → ℚ
  | Cell.num q => q
  | _ => 0

/-- One row of the imported table.  Field names follow the source's column
headers (`RoomIdentifier`, `BelongsToIdentifier`, `UsageType`,
`NetArea[m²]`, `HeatedRoomHeight[m]`, `WallAdjacentTo`,
`OuterWallOrientation[°]/Area[m²]/Construction`,
`WindowOrientation[°]/Area[m²]/Construction`, `IsGroundFloor`,
`FloorConstruction`, `IsRooftop`, `CeilingConstruction`,
`InnerWallArea[m²]`, `InnerWallConstruction`), with the derived columns
added by `zoning_example` defaulting to missing. -/
structure Record where
  idx : ℕ := 0
  roomIdentifier : Cell := Cell.na
  belongsToIdentifier : Cell := Cell.na
  usageType : Cell := Cell.na
  netArea : Cell := Cell.na
  heatedRoomHeight : Cell := Cell.na
  wallAdjacentTo : Cell := Cell.na
  outerWallOrientation : Cell := Cell.na
  outerWallArea : Cell := Cell.na
  outerWallConstruction : Cell := Cell.na
  windowOrientation : Cell := Cell.na
  windowArea : Cell := Cell.na
  windowConstruction : Cell := Cell.na
  isGroundFloor : Cell := Cell.na
  floorConstruction : Cell := Cell.na
  isRooftop : Cell := Cell.na
  ceilingConstruction : Cell := Cell.na
  innerWallArea : Cell := Cell.na
  innerWallConstruction : Cell := Cell.na
  roomCluster : Cell := Cell.na
  roomClusterUsage : Cell := Cell.na
  usageTypeTeaser : Cell := Cell.na
  zone : Cell := Cell.na
deriving DecidableEq, Repr

/-- Structured form of the `warnings.warn` calls of the source. -/
inductive Diag where
  | zeroAreaUsage (rowIndex : ℕ)
  | clusterUsage (cluster : Cell)
  | outerWallOrientationNotNumeric (orientation construction : Cell)
  | windowOrientationNotNumeric (orientation construction : Cell)
  | groundFloorFlagInvalid
  | floorZeroArea (flag construction : Cell)
  | rooftopFlagInvalid
  | ceilingZeroArea (flag construction : Cell)
  | innerWallZeroArea (construction : Cell)
deriving DecidableEq, Repr

/- ### Normalization (`import_data`) -/

/-- ASCII whitespace as stripped by Python's `str.strip`. -/
def isSpaceChar (c : Char) : Bool :=
  c == ' ' || c == '\t' || c == '\n' || c == '\r'

/-- `str.strip`: drop leading and trailing whitespace. -/
def stripString (s : String) : String :=
  String.mk (((s.toList.dropWhile isSpaceChar).reverse.dropWhile isSpaceChar).reverse)

/-- The exact token list of the source's `data.replace([...], np.nan)` call. -/
def naTokens : List String :=
  ["", "N/a", "n/A", "NAN", "nan", "na", "Na", "nA", "NA"]

/-- The default `na_values` of the `pd.read_excel` calls inside
`import_data` (the documented pandas default of the source's era): these
tokens are canonicalized to NaN at parse time, on exact cell match and
before any stripping.  Only the empty string and the `n/a`, `na` and `nan`
members matter to the claims; the exotic members are listed for
completeness. -/
def readNaTokens : List String :=
  ["", "#N/A", "#N/A N/A", "#NA", "-1.#IND", "-1.#INF", "-1.#QNAN", "-NaN",
   "-nan", "1.#IND", "1.#QNAN", "N/A", "NA", "NULL", "NaN", "None", "n/a",
   "nan", "null"]

/-- The parse step of `pd.read_excel`: a string cell exactly matching a
default NA token arrives as NaN; no stripping happens at this stage. -/
def readCell : Cell → Cell
  | Cell.str s => if s ∈ readNaTokens then Cell.na else Cell.str s
  | c => c

def stripCell : Cell → Cell
  | Cell.str s => Cell.str (stripString s)
  | c => c

def replaceNaCell : Cell → Cell
  | Cell.str s => if s ∈ naTokens then Cell.na else Cell.str s
  | c => c

/-- The per-cell effect of `import_data`: parse-time NA conversion, then
strip, then the replace-list canonicalization. -/
def normalizeCell (c : Cell) : Cell :=
  replaceNaCell (stripCell (readCell c))

/-- `import_data` on a list of sheets (the `type(sheet_names) == list`
branch).  Each sheet is read with its own RangeIndex `0…n-1`; `append`
keeps those per-sheet indices, `reset_index(drop=False)` materializes them
into the `index` column while installing a fresh global RangeIndex (the
list position here), and `+ 2` turns them into per-sheet excel row
numbers — the materialized numbering restarts at 2 for every sheet.  Every
cell is normalized. -/
def import_data (sheets : List (List (List Cell))) : List (ℕ × List Cell) :=
  (sheets.map (fun sheet =>
    sheet.enum.map (fun p => (p.1 + 2, p.2.map normalizeCell)))).flatten

/- ### Zoning (`zoning_example`) -/

/-- First loop of `zoning_example`: a row whose `WallAdjacentTo` is set has
its outer-wall and window areas folded into its inner-wall area and its six
outer-wall/window fields blanked. -/
def reclassifyRecord (r : Record) : Record :=
  if r.wallAdjacentTo.isNa then r
  else
    { r with
      innerWallArea := (r.outerWallArea.add r.windowArea).add r.innerWallArea,
      windowOrientation := Cell.na,
      windowArea := Cell.na,
      windowConstruction := Cell.na,
      outerWallOrientation := Cell.na,
      outerWallArea := Cell.na,
      outerWallConstruction := Cell.na }

/-- Second loop: the cluster key is `BelongsToIdentifier` when present,
else `RoomIdentifier`. -/
def assignCluster (r : Record) : Record :=
  if r.belongsToIdentifier.isNa then { r with roomCluster := r.roomIdentifier }
  else { r with roomCluster := r.belongsToIdentifier }

def assignClusters (data : List Record) : List Record :=
  data.map assignCluster

/-- The condition of the zero-net-area warning loop.  The source tests
`row["NetArea[m²]"] == 0 or row["NetArea[m²]"] == np.nan`; the second
comparison is always `False`, because NaN compares unequal to every value
including itself, so only an exact zero triggers the warning.  The dead
disjunct is kept here verbatim. -/
def zeroAreaCond (r : Record) : Bool :=
  (cellEqNum r.netArea 0 || false) && !r.usageType.isNa

/-- The zero-net-area warnings, one per offending row, naming its index. -/
def zeroAreaDiags (data : List Record) : List Diag :=
  data.filterMap (fun r => if zeroAreaCond r then some (Diag.zeroAreaUsage r.idx) else none)

/-- A row qualifies as carrying the authoritative usage of its cluster when
it has no back-reference and a non-missing `UsageType`. -/
def qualifies (r : Record) : Bool :=
  r.belongsToIdentifier.isNa && !r.usageType.isNa

def clusterRows (data : List Record) (c : Cell) : List Record :=
  data.filter (fun r => r.roomCluster == c)

/-- The cluster keys iterated by `data.groupby(["RoomCluster"])`: missing
keys are dropped by pandas.  pandas emits groups sorted by key; no claim
depends on the iteration order, so the distinct keys are listed here via
`dedup`. -/
def clusterKeys (data : List Record) : List Cell :=
  ((data.map (fun r => r.roomCluster)).filter (fun c => !c.isNa)).dedup

/-- Net effect of the usage-resolution loop on one row.  The source writes
`main_usage` to every row of the cluster once per qualifying line, in row
order, so the last qualifying line of the cluster wins.  Rows whose cluster
key is missing are never matched (`NaN == NaN` is `False`) and keep their
value. -/
def resolveRecordUsage (data : List Record) (r : Record) : Record :=
  if r.roomCluster.isNa then r
  else
    match ((clusterRows data r.roomCluster).filter qualifies).getLast? with
    | some q => { r with roomClusterUsage := q.usageType }
    | none => r

def resolveUsage (data : List Record) : List Record :=
  data.map (resolveRecordUsage data)

/-- The `count != 1` warning of the usage-resolution loop, once per
offending cluster. -/
def clusterUsageDiags (data : List Record) : List Diag :=
  (clusterKeys data).filterMap (fun c =>
    if ((clusterRows data c).filter qualifies).length ≠ 1 then
      some (Diag.clusterUsage c)
    else none)

/-- The hard-coded `usage_to_json_usage` dictionary of the source. -/
def usage_to_json_usage : List (String × String) :=
  [("IsolationRoom", "Bed room"),
   ("PatientRoom", "Bed room"),
   ("Aisle", "Corridors in the general care area"),
   ("Technical room", "Stock, technical equipment, archives"),
   ("Washing", "WC and sanitary rooms in non-residential buildings"),
   ("Stairway", "Corridors in the general care area"),
   ("WC", "WC and sanitary rooms in non-residential buildings"),
   ("Storage", "Stock, technical equipment, archives"),
   ("Lounge", "Meeting, Conference, seminar"),
   ("Office", "Meeting, Conference, seminar"),
   ("Treatment room", "Examination- or treatment room"),
   ("StorageChemical", "Stock, technical equipment, archives"),
   ("EquipmentServiceAndRinse", "WC and sanitary rooms in non-residential buildings")]

def lookupUsage (s : String) : Option String :=
  (usage_to_json_usage.find? (fun p => p.1 == s)).map (fun p => p.2)

/-- Dictionary lookup of a cell: only a string key can hit the table; a
non-string key raises `KeyError` just like an unmapped string. -/
def lookupUsageCell : Cell → Option String
  | Cell.str s => lookupUsage s
  | _ => none

/-- `get_list_of_present_entries`: distinct non-missing entries, in first
occurrence order (the `if not None:` line of the source is vacuously
true). -/
def addPresent (acc : List Cell) (x : Cell) : List Cell :=
  if x ∈ acc then acc else if x.isNa then acc else acc ++ [x]

def get_list_of_present_entries (l : List Cell) : List Cell :=
  l.foldl addPresent []

/-- Looking up every present usage in `usage_to_json_usage`, in order.
The first usage absent from the dictionary raises `KeyError`
(`usage_to_json_usage[usage]`), aborting the run; this is modelled by
`Except.error` carrying the offending usage cell. -/
def lookupPairs : List Cell → Except Cell (List (Cell × String))
  | [] => Except.ok []
  | u :: rest =>
    match lookupUsageCell u with
    | some v =>
      match lookupPairs rest with
      | Except.ok ps => Except.ok ((u, v) :: ps)
      | Except.error e => Except.error e
    | none => Except.error u

/-- Net effect of the chained `np.where` assignments on one row:
`UsageType_Teaser` starts as `""` and each present usage rewrites its own
rows, so a row ends with the mapped value of its `RoomClusterUsage` when
that usage is present, else `""`; `Zone` is then a copy of
`UsageType_Teaser`. -/
def applyPairs (pairs : List (Cell × String)) (r : Record) : Record :=
  match pairs.find? (fun p => p.1 == r.roomClusterUsage) with
  | some p => { r with usageTypeTeaser := Cell.str p.2, zone := Cell.str p.2 }
  | none => { r with usageTypeTeaser := Cell.str "", zone := Cell.str "" }

/-- The usage-mapping tail of `zoning_example`.  (If no cluster anywhere
has a qualifying row the source raises `KeyError` even earlier, because the
`RoomClusterUsage` column was never created; that degenerate corner is not
modelled and is not touched by any claim.) -/
def mapUsagesStep (data : List Record) : Except Cell (List Record) :=
  match lookupPairs (get_list_of_present_entries (data.map (fun r => r.roomClusterUsage))) with
  | Except.ok pairs => Except.ok (data.map (applyPairs pairs))
  | Except.error e => Except.error e

/-- Reclassification followed by cluster assignment — the state of `data`
entering the usage-resolution loop. -/
def prepare (data : List Record) : List Record :=
  assignClusters (data.map reclassifyRecord)

/-- The whole `zoning_example` pipeline. -/
def zoning_example (data : List Record) : Except Cell (List Record) :=
  mapUsagesStep (resolveUsage (prepare data))

/- ### Zone/envelope aggregation (`import_building_from_excel`) -/

/-- `np.nansum` of one column over a set of rows. -/
def nansumBy (f : Record → Cell) (rows : List Record) : ℚ :=
  (rows.map (fun r => cellNum0 (f r))).sum

def zoneRows (data : List Record) (z : Cell) : List Record :=
  data.filter (fun r => r.zone == z)

/-- `tz.area = np.nansum(zone["NetArea[m²]"])`. -/
def tzArea (rows : List Record) : ℚ :=
  nansumBy (fun r => r.netArea) rows

/-- One row's summand of `tz.volume`: the elementwise product
`NetArea * HeatedRoomHeight` is NaN (counted as 0 by `nansum`) when either
factor is missing. -/
def volTerm (r : Record) : ℚ :=
  match r.netArea, r.heatedRoomHeight with
  | Cell.num a, Cell.num h => a * h
  | _, _ => 0

def tzVolume (rows : List Record) : ℚ :=
  (rows.map volTerm).sum

/-- An aggregated outer-wall or window element. -/
structure WallElement where
  orientation : Cell
  construction : Cell
  tilt : ℚ
  area : ℚ
deriving DecidableEq, Repr

/-- Group keys of `zone.groupby(["OuterWallOrientation[°]", "OuterWallConstruction"])`:
pandas drops groups whose key contains NaN.  Groups are emitted sorted by
key; no claim depends on the order, so the distinct keys appear via
`dedup`. -/
def owKeys (rows : List Record) : List (Cell × Cell) :=
  ((rows.map (fun r => (r.outerWallOrientation, r.outerWallConstruction))).filter
    (fun k => !k.1.isNa && !k.2.isNa)).dedup

def owGroup (rows : List Record) (k : Cell × Cell) : List Record :=
  rows.filter (fun r => r.outerWallOrientation == k.1 && r.outerWallConstruction == k.2)

def owSum (rows : List Record) (k : Cell × Cell) : ℚ :=
  nansumBy (fun r => r.outerWallArea) (owGroup rows k)

/-- The element created for one outer-wall group: skipped when the
orientation is a string (warning) or the summed area is not positive. -/
def owElemOfKey (rows : List Record) (k : Cell × Cell) : Option WallElement :=
  if k.1.isStr then none
  else if 0 < owSum rows k then
    some { orientation := k.1, construction := k.2, tilt := 90, area := owSum rows k }
  else none

def outerWallElements (rows : List Record) : List WallElement :=
  (owKeys rows).filterMap (owElemOfKey rows)

def outerWallDiags (rows : List Record) : List Diag :=
  (owKeys rows).filterMap (fun k =>
    if k.1.isStr then some (Diag.outerWallOrientationNotNumeric k.1 k.2) else none)

def winKeys (rows : List Record) : List (Cell × Cell) :=
  ((rows.map (fun r => (r.windowOrientation, r.windowConstruction))).filter
    (fun k => !k.1.isNa && !k.2.isNa)).dedup

def winGroup (rows : List Record) (k : Cell × Cell) : List Record :=
  rows.filter (fun r => r.windowOrientation == k.1 && r.windowConstruction == k.2)

def winSum (rows : List Record) (k : Cell × Cell) : ℚ :=
  nansumBy (fun r => r.windowArea) (winGroup rows k)

def winElemOfKey (rows : List Record) (k : Cell × Cell) : Option WallElement :=
  if k.1.isStr then none
  else if 0 < winSum rows k then
    some { orientation := k.1, construction := k.2, tilt := 90, area := winSum rows k }
  else none

def windowElements (rows : List Record) : List WallElement :=
  (winKeys rows).filterMap (winElemOfKey rows)

def windowDiags (rows : List Record) : List Diag :=
  (winKeys rows).filterMap (fun k =>
    if k.1.isStr then some (Diag.windowOrientationNotNumeric k.1 k.2) else none)

/-- Elements of the `(IsGroundFloor, FloorConstruction)` grouping. -/
inductive FloorElem where
  | ground (construction : Cell) (area : ℚ)
  | floor (construction : Cell) (area : ℚ)
deriving DecidableEq, Repr

def floorKeys (rows : List Record) : List (Cell × Cell) :=
  ((rows.map (fun r => (r.isGroundFloor, r.floorConstruction))).filter
    (fun k => !k.1.isNa && !k.2.isNa)).dedup

def floorGroup (rows : List Record) (k : Cell × Cell) : List Record :=
  rows.filter (fun r => r.isGroundFloor == k.1 && r.floorConstruction == k.2)

def floorSum (rows : List Record) (k : Cell × Cell) : ℚ :=
  nansumBy (fun r => r.netArea) (floorGroup rows k)

/-- One `(IsGroundFloor, FloorConstruction)` group: flag 1 yields a
`GroundFloor` with the full summed net area, flag 0 a `Floor` with half of
it; any other flag, or a zero total, yields only a warning. -/
def floorElemOfKey (rows : List Record) (k : Cell × Cell) : Option FloorElem :=
  if floorSum rows k ≠ 0 then
    if cellEqNum k.1 1 then some (FloorElem.ground k.2 (floorSum rows k))
    else if cellEqNum k.1 0 then some (FloorElem.floor k.2 (floorSum rows k / 2))
    else none
  else none

def floorElements (rows : List Record) : List FloorElem :=
  (floorKeys rows).filterMap (floorElemOfKey rows)

def floorDiags (rows : List Record) : List Diag :=
  (floorKeys rows).filterMap (fun k =>
    if floorSum rows k ≠ 0 then
      if cellEqNum k.1 1 then none
      else if cellEqNum k.1 0 then none
      else some Diag.groundFloorFlagInvalid
    else some (Diag.floorZeroArea k.1 k.2))

/-- Elements of the `(IsRooftop, CeilingConstruction)` grouping. -/
inductive CeilElem where
  | rooftop (construction : Cell) (area : ℚ)
  | ceiling (construction : Cell) (area : ℚ)
deriving DecidableEq, Repr

def ceilKeys (rows : List Record) : List (Cell × Cell) :=
  ((rows.map (fun r => (r.isRooftop, r.ceilingConstruction))).filter
    (fun k => !k.1.isNa && !k.2.isNa)).dedup

def ceilGroup (rows : List Record) (k : Cell × Cell) : List Record :=
  rows.filter (fun r => r.isRooftop == k.1 && r.ceilingConstruction == k.2)

def ceilSum (rows : List Record) (k : Cell × Cell) : ℚ :=
  nansumBy (fun r => r.netArea) (ceilGroup rows k)

/-- One `(IsRooftop, CeilingConstruction)` group: flag 1 yields a `Rooftop`
with the full summed net area, flag 0 a `Ceiling` with half of it. -/
def ceilElemOfKey (rows : List Record) (k : Cell × Cell) : Option CeilElem :=
  if ceilSum rows k ≠ 0 then
    if cellEqNum k.1 1 then some (CeilElem.rooftop k.2 (ceilSum rows k))
    else if cellEqNum k.1 0 then some (CeilElem.ceiling k.2 (ceilSum rows k / 2))
    else none
  else none

def ceilElements (rows : List Record) : List CeilElem :=
  (ceilKeys rows).filterMap (ceilElemOfKey rows)

def ceilDiags (rows : List Record) : List Diag :=
  (ceilKeys rows).filterMap (fun k =>
    if ceilSum rows k ≠ 0 then
      if cellEqNum k.1 1 then none
      else if cellEqNum k.1 0 then none
      else some Diag.rooftopFlagInvalid
    else some (Diag.ceilingZeroArea k.1 k.2))

/-- An aggregated inner-wall element. -/
structure InnerWallElem where
  construction : Cell
  area : ℚ
deriving DecidableEq, Repr

def iwKeys (rows : List Record) : List Cell :=
  ((rows.map (fun r => r.innerWallConstruction)).filter (fun c => !c.isNa)).dedup

def iwGroup (rows : List Record) (c : Cell) : List Record :=
  rows.filter (fun r => r.innerWallConstruction == c)

def iwSum (rows : List Record) (c : Cell) : ℚ :=
  nansumBy (fun r => r.innerWallArea) (iwGroup rows c)

/-- One `InnerWallConstruction` group: half of the summed inner-wall area,
or only a warning when the total is zero. -/
def iwElemOfKey (rows : List Record) (c : Cell) : Option InnerWallElem :=
  if iwSum rows c ≠ 0 then some { construction := c, area := iwSum rows c / 2 }
  else none

def innerWallElements (rows : List Record) : List InnerWallElem :=
  (iwKeys rows).filterMap (iwElemOfKey rows)

/- ### Retrofit (`GroundFloor.retrofit_wall`) -/

inductive RetrofitError where
  | invalidYear
deriving DecidableEq, Repr

/-- Modelled from the spec: `initialize_retrofit`, defined in the parent
class `Wall` which is not part of this repository snapshot, validates the
retrofit year and fails with an InvalidYear condition for years before
1977; the optional insulation material is passed through. -/
def init_retrofit (year : ℤ) : Except RetrofitError ℤ :=
  if year < 1977 then Except.error RetrofitError.invalidYear else Except.ok year

/-- The `calc_u` cascade of `GroundFloor.retrofit_wall`, verbatim from the
source: `calc_u` starts as `None` and the year bands assign the target
U-value in W/(m²K). -/
def retrofit_calc_u (y : ℤ) : Option ℚ :=
  if 1977 ≤ y ∧ y ≤ 1981 then some (8 / 10)
  else if 1982 ≤ y ∧ y ≤ 1994 then some (7 / 10)
  else if 1995 ≤ y ∧ y ≤ 2001 then some (5 / 10)
  else if 2002 ≤ y ∧ y ≤ 2008 then some (4 / 10)
  else if 2009 ≤ y ∧ y ≤ 2013 then some (3 / 10)
  else if 2014 ≤ y then some (3 / 10)
  else none

/-- `GroundFloor.retrofit_wall`: validate the year, look up the band
target, and hand `(material, calc_u, year)` to `set_insulation`. -/
def retrofit_wall (year_of_retrofit : ℤ) (material : Option String) :
    Except RetrofitError (Option String × Option ℚ × ℤ) :=
  match init_retrofit year_of_retrofit with
  | Except.error e => Except.error e
  | Except.ok y => Except.ok (material, retrofit_calc_u y, y)

/- ### Concrete inputs used by counterexamples and witnesses -/

/-- A room row with `WallAdjacentTo` set and areas 8 / 2 / 3. -/
def c3rec : Record :=
  { wallAdjacentTo := Cell.str "Room2", outerWallArea := Cell.num 8,
    windowArea := Cell.num 2, innerWallArea := Cell.num 3 }

/-- A row with missing net area but a stated usage. -/
def c8recNan : Record :=
  { idx := 5, netArea := Cell.na, usageType := Cell.str "Office" }

/-- A row with zero net area and a stated usage. -/
def c8recZero : Record :=
  { idx := 7, netArea := Cell.num 0, usageType := Cell.str "Office" }

/-- Two rows of the same cluster `R1`, both qualifying, with different
usages: first `Office`, then `WC`. -/
def c1r1 : Record :=
  { idx := 2, roomIdentifier := Cell.str "R1", usageType := Cell.str "Office",
    netArea := Cell.num 10, heatedRoomHeight := Cell.num 3 }

def c1r2 : Record :=
  { idx := 3, roomIdentifier := Cell.str "R1", usageType := Cell.str "WC",
    netArea := Cell.num 12, heatedRoomHeight := Cell.num 3 }

/-- A room whose usage `Gym` is absent from `usage_to_json_usage`, next to
a room with a mappable usage. -/
def c7recGym : Record :=
  { idx := 2, roomIdentifier := Cell.str "R1", usageType := Cell.str "Gym",
    netArea := Cell.num 10, heatedRoomHeight := Cell.num 3 }

def c7recOff : Record :=
  { idx := 3, roomIdentifier := Cell.str "R2", usageType := Cell.str "Office",
    netArea := Cell.num 5, heatedRoomHeight := Cell.num 3 }

/-- A row producing a `Floor` element (flag 0) of construction `C`. -/
def c2row : Record :=
  { roomIdentifier := Cell.str "R1", netArea := Cell.num 10,
    isGroundFloor := Cell.num 0, floorConstruction := Cell.str "C" }

/-- A row producing one outer-wall group (orientation 90, `Brick`). -/
def c4row : Record :=
  { roomIdentifier := Cell.str "R1", outerWallOrientation := Cell.num 90,
    outerWallArea := Cell.num 10, outerWallConstruction := Cell.str "Brick" }

/-- A row whose `IsGroundFloor` flag is 2 with nonzero net area. -/
def c5row : Record :=
  { roomIdentifier := Cell.str "R1", netArea := Cell.num 10,
    isGroundFloor := Cell.num 2, floorConstruction := Cell.str "C" }

/-- Two distinct rooms of one cluster each, with different mappable usages
and different areas; `c9dataB` is `c9dataA` with the rows swapped. -/
def c9wA : Record :=
  { idx := 2, roomIdentifier := Cell.str "A", usageType := Cell.str "Office",
    netArea := Cell.num 10, heatedRoomHeight := Cell.num 3 }

def c9wB : Record :=
  { idx := 3, roomIdentifier := Cell.str "B", usageType := Cell.str "WC",
    netArea := Cell.num 20, heatedRoomHeight := Cell.num 4 }

def c9dataA : List Record := [c9wA, c9wB]

def c9dataB : List Record := [c9wB, c9wA]

def c9outA : List Record := (zoning_example c9dataA).toOption.getD []

def c9outB : List Record := (zoning_example c9dataB).toOption.getD []

/-- Two rows of ONE cluster `R`, both qualifying, with different mappable
usages: the resolved usage (and hence the zone of the whole cluster)
depends on the row order. -/
def c9cr1 : Record :=
  { idx := 2, roomIdentifier := Cell.str "R", usageType := Cell.str "Office",
    netArea := Cell.num 10, heatedRoomHeight := Cell.num 3 }

def c9cr2 : Record :=
  { idx := 3, roomIdentifier := Cell.str "R", usageType := Cell.str "WC",
    netArea := Cell.num 20, heatedRoomHeight := Cell.num 3 }

/- ### Helper lemmas -/

lemma cellEqNum_iff (c : Cell) (q : ℚ) : cellEqNum c q = true ↔ c = Cell.num q := by
  cases c <;> simp [cellEqNum]

lemma perm_eq_of_length_le_one {α : Type} {l1 l2 : List α}
    (h : l1.Perm l2) (hl : l2.length ≤ 1) : l1 = l2 := by
  match l2, hl with
  | [], _ => exact List.Perm.eq_nil h
  | [a], _ => exact List.perm_singleton.mp h

/- ### Claim theorems -/

/-- Claim C3: for every record whose `WallAdjacentTo` is non-missing,
reclassification replaces its inner-wall area by the sum of its outer-wall,
window and inner-wall areas and blanks the six outer-wall/window fields. -/
theorem C3_reclassify (r : Record) (a b c : ℚ)
    (hw : r.wallAdjacentTo.isNa = false)
    (ha : r.outerWallArea = Cell.num a) (hb : r.windowArea = Cell.num b)
    (hc : r.innerWallArea = Cell.num c) :
    (reclassifyRecord r).innerWallArea = Cell.num (a + b + c)
    ∧ (reclassifyRecord r).outerWallOrientation = Cell.na
    ∧ (reclassifyRecord r).outerWallArea = Cell.na
    ∧ (reclassifyRecord r).outerWallConstruction = Cell.na
    ∧ (reclassifyRecord r).windowOrientation = Cell.na
    ∧ (reclassifyRecord r).windowArea = Cell.na
    ∧ (reclassifyRecord r).windowConstruction = Cell.na := by
  simp [reclassifyRecord, hw, ha, hb, hc, Cell.add]

/-- Witness for C3 at the spec's scenario: areas 8, 2, 3 give 13. -/
theorem C3_reclassify_witness :
    (reclassifyRecord c3rec).innerWallArea = Cell.num 13
    ∧ (reclassifyRecord c3rec).outerWallArea = Cell.na := by
  have h := C3_reclassify c3rec 8 2 3 rfl rfl rfl rfl
  refine ⟨?_, h.2.2.1⟩
  rw [h.1]; norm_num

/-- Claim C6: the retrofit maps the year to the target U-value by the fixed
bands and fails with InvalidYear for years before 1977. -/
theorem C6_retrofit_year_bands (year : ℤ) (material : Option String) :
    (year < 1977 → retrofit_wall year material = Except.error RetrofitError.invalidYear)
    ∧ (1977 ≤ year → year ≤ 1981 →
        retrofit_wall year material = Except.ok (material, some (8 / 10), year))
    ∧ (1982 ≤ year → year ≤ 1994 →
        retrofit_wall year material = Except.ok (material, some (7 / 10), year))
    ∧ (1995 ≤ year → year ≤ 2001 →
        retrofit_wall year material = Except.ok (material, some (5 / 10), year))
    ∧ (2002 ≤ year → year ≤ 2008 →
        retrofit_wall year material = Except.ok (material, some (4 / 10), year))
    ∧ (2009 ≤ year → year ≤ 2013 →
        retrofit_wall year material = Except.ok (material, some (3 / 10), year))
    ∧ (2014 ≤ year →
        retrofit_wall year material = Except.ok (material, some (3 / 10), year)) := by
  refine ⟨fun h => by simp [retrofit_wall, init_retrofit, h], ?_, ?_, ?_, ?_, ?_, ?_⟩
  all_goals intro h1
  all_goals try intro h2
  all_goals
    have hn : ¬ year < 1977 := by omega
    simp only [retrofit_wall, init_retrofit, if_neg hn, retrofit_calc_u]
  · rw [if_pos ⟨h1, h2⟩]
  · rw [if_neg (by omega : ¬ (1977 ≤ year ∧ year ≤ 1981)), if_pos ⟨h1, h2⟩]
  · rw [if_neg (by omega : ¬ (1977 ≤ year ∧ year ≤ 1981)),
      if_neg (by omega : ¬ (1982 ≤ year ∧ year ≤ 1994)), if_pos ⟨h1, h2⟩]
  · rw [if_neg (by omega : ¬ (1977 ≤ year ∧ year ≤ 1981)),
      if_neg (by omega : ¬ (1982 ≤ year ∧ year ≤ 1994)),
      if_neg (by omega : ¬ (1995 ≤ year ∧ year ≤ 2001)), if_pos ⟨h1, h2⟩]
  · rw [if_neg (by omega : ¬ (1977 ≤ year ∧ year ≤ 1981)),
      if_neg (by omega : ¬ (1982 ≤ year ∧ year ≤ 1994)),
      if_neg (by omega : ¬ (1995 ≤ year ∧ year ≤ 2001)),
      if_neg (by omega : ¬ (2002 ≤ year ∧ year ≤ 2008)), if_pos ⟨h1, h2⟩]
  · rw [if_neg (by omega : ¬ (1977 ≤ year ∧ year ≤ 1981)),
      if_neg (by omega : ¬ (1982 ≤ year ∧ year ≤ 1994)),
      if_neg (by omega : ¬ (1995 ≤ year ∧ year ≤ 2001)),
      if_neg (by omega : ¬ (2002 ≤ year ∧ year ≤ 2008)),
      if_neg (by omega : ¬ (2009 ≤ year ∧ year ≤ 2013)), if_pos h1]

/-- Witness for C6: year 1976 fails, year 1980 gives 0.8. -/
theorem C6_retrofit_year_bands_witness :
    retrofit_wall 1976 none = Except.error RetrofitError.invalidYear
    ∧ retrofit_wall 1980 none = Except.ok (none, some (8 / 10), 1980) :=
  ⟨(C6_retrofit_year_bands 1976 none).1 (by decide),
   (C6_retrofit_year_bands 1980 none).2.1 (by decide) (by decide)⟩

/-- Claim C8 (code bug): a row with missing net area and a stated usage is
not flagged, because the source's `row["NetArea[m²]"] == np.nan` test is
always False; a row with net area exactly 0 is flagged with its index. -/
theorem C8_missing_netarea_not_flagged :
    zeroAreaDiags [c8recNan] = []
    ∧ c8recNan.netArea = Cell.na
    ∧ c8recNan.usageType.isNa = false
    ∧ zeroAreaDiags [c8recZero] = [Diag.zeroAreaUsage 7] := by decide

/-- Counterexample to claim C10 as stated: a cell holding `" n/a "` (the
base token padded with spaces) is not matched by the parse step (exact
match only), is stripped to `n/a`, and `n/a` is absent from the replace
list — so a common case-variant of "n/a" survives normalization as a
string instead of being canonicalized to the missing marker. -/
theorem C10_na_variant_not_canonicalized :
    import_data [[[Cell.str " n/a "]]] = [(2, [Cell.str "n/a"])]
    ∧ Cell.str "n/a" ≠ Cell.na := by decide

/-- Claim C10 (amended): the parse step canonicalizes the pandas default
NA tokens on exact match; normalization then strips whitespace from the
remaining string cells and canonicalizes exactly the nine tokens of the
source's replace list; a stripped value outside both lists survives as the
stripped string (so whitespace-padded read-only tokens such as `" n/a "`,
and case-variants outside both lists such as `"Nan"`, survive); the
materialized row numbering restarts at 2 for every sheet. -/
theorem C10_normalization (sheets : List (List (List Cell))) :
    (import_data sheets).map Prod.fst
      = (sheets.map (fun sheet => (List.range sheet.length).map (fun i => i + 2))).flatten
    ∧ (import_data sheets).map Prod.snd
      = (sheets.flatten).map (fun row => row.map normalizeCell)
    ∧ (∀ s : String, s ∈ readNaTokens → normalizeCell (Cell.str s) = Cell.na)
    ∧ (∀ s : String, s ∉ readNaTokens → stripString s ∈ naTokens →
        normalizeCell (Cell.str s) = Cell.na)
    ∧ (∀ s : String, s ∉ readNaTokens → stripString s ∉ naTokens →
        normalizeCell (Cell.str s) = Cell.str (stripString s))
    ∧ normalizeCell Cell.na = Cell.na
    ∧ (∀ q : ℚ, normalizeCell (Cell.num q) = Cell.num q) := by
  refine ⟨?_, ?_, ?_, ?_, ?_, rfl, fun q => rfl⟩
  · unfold import_data
    rw [List.map_flatten, List.map_map]
    congr 1
    refine List.map_congr_left (fun sheet _ => ?_)
    show (sheet.enum.map (fun p => (p.1 + 2, p.2.map normalizeCell))).map Prod.fst
      = (List.range sheet.length).map (fun i => i + 2)
    rw [List.map_map, ← List.enum_map_fst sheet, List.map_map]
    rfl
  · unfold import_data
    rw [List.map_flatten, List.map_map]
    conv_rhs => rw [List.map_flatten]
    congr 1
    refine List.map_congr_left (fun sheet _ => ?_)
    show (sheet.enum.map (fun p => (p.1 + 2, p.2.map normalizeCell))).map Prod.snd
      = sheet.map (fun row => row.map normalizeCell)
    rw [List.map_map]
    conv_rhs => rw [← List.enum_map_snd sheet]
    rw [List.map_map]
    rfl
  · intro s hs
    simp [normalizeCell, readCell, stripCell, replaceNaCell, hs]
  · intro s hs1 hs2
    simp [normalizeCell, readCell, stripCell, replaceNaCell, hs1, hs2]
  · intro s hs1 hs2
    simp [normalizeCell, readCell, stripCell, replaceNaCell, hs1, hs2]

/-- Witness for C10: the exact token `n/a` is canonicalized by the parse
step, and a padded `na` survives the parse step but is canonicalized by
strip plus the replace list. -/
theorem C10_normalization_witness :
    ("n/a" ∈ readNaTokens ∧ normalizeCell (Cell.str "n/a") = Cell.na)
    ∧ (" na " ∉ readNaTokens ∧ stripString " na " ∈ naTokens
        ∧ normalizeCell (Cell.str " na ") = Cell.na) :=
  ⟨⟨by decide, (C10_normalization []).2.2.1 "n/a" (by decide)⟩,
   ⟨by decide, by decide,
    (C10_normalization []).2.2.2.1 " na " (by decide) (by decide)⟩⟩

lemma filter_filterMap_nil {α β : Type} [DecidableEq α] [BEq α] [LawfulBEq α]
    (key : β → α) (f : α → Option β)
    (hkey : ∀ a e, f a = some e → key e = a) (k : α)
    (keys : List α) (hk : k ∉ keys) :
    (keys.filterMap f).filter (fun b => key b == k) = [] := by
  rw [List.filter_eq_nil_iff]
  intro b hb
  obtain ⟨a, ha, hfa⟩ := List.mem_filterMap.mp hb
  have hk2 := hkey a b hfa
  intro hcon
  rw [beq_iff_eq] at hcon
  have : a = k := by rw [← hk2, hcon]
  subst this
  exact hk ha

lemma filter_filterMap_singleton {α β : Type} [DecidableEq α] [BEq α] [LawfulBEq α]
    (key : β → α) (f : α → Option β)
    (hkey : ∀ a e, f a = some e → key e = a) :
    ∀ keys : List α, keys.Nodup → ∀ k ∈ keys, ∀ e, f k = some e →
      (keys.filterMap f).filter (fun b => key b == k) = [e] := by
  intro keys
  induction keys with
  | nil => intro _ k hk; exact absurd hk (List.not_mem_nil k)
  | cons a as ih =>
    intro hnd k hk e hfe
    obtain ⟨hna, hnd'⟩ := List.nodup_cons.mp hnd
    rcases List.mem_cons.mp hk with rfl | hkas
    · rw [List.filterMap_cons_some hfe,
        List.filter_cons_of_pos (by rw [hkey k e hfe]; exact beq_self_eq_true k),
        filter_filterMap_nil key f hkey k as hna]
    · cases hfa : f a with
      | none =>
        rw [List.filterMap_cons_none hfa]
        exact ih hnd' k hkas e hfe
      | some e' =>
        rw [List.filterMap_cons_some hfa]
        have hne : a ≠ k := fun h => hna (h ▸ hkas)
        rw [List.filter_cons_of_neg (by
          rw [hkey a e' hfa]
          simp only [beq_iff_eq]
          exact hne)]
        exact ih hnd' k hkas e hfe

/-- Claim C2: inner-wall, floor and ceiling elements carry exactly half of
the summed raw area of their group (inner-wall area, resp. net area);
ground-floor and rooftop elements carry the full sum. -/
theorem C2_half_areas (rows : List Record) :
    (∀ e ∈ innerWallElements rows, e.area = iwSum rows e.construction / 2)
    ∧ (∀ c a, FloorElem.floor c a ∈ floorElements rows →
        a = floorSum rows (Cell.num 0, c) / 2)
    ∧ (∀ c a, FloorElem.ground c a ∈ floorElements rows →
        a = floorSum rows (Cell.num 1, c))
    ∧ (∀ c a, CeilElem.ceiling c a ∈ ceilElements rows →
        a = ceilSum rows (Cell.num 0, c) / 2)
    ∧ (∀ c a, CeilElem.rooftop c a ∈ ceilElements rows →
        a = ceilSum rows (Cell.num 1, c)) := by
  refine ⟨?_, ?_, ?_, ?_, ?_⟩
  · intro e he
    obtain ⟨k, _, hk⟩ := List.mem_filterMap.mp he
    unfold iwElemOfKey at hk
    split_ifs at hk with h1
    simp only [Option.some.injEq] at hk
    subst hk
    rfl
  · intro c a h
    obtain ⟨k, _, hk⟩ := List.mem_filterMap.mp h
    unfold floorElemOfKey at hk
    split_ifs at hk with h1 h2 h3
    · simp at hk
    · simp only [Option.some.injEq, FloorElem.floor.injEq] at hk
      obtain ⟨hc, ha⟩ := hk
      have hk1 : k.1 = Cell.num 0 := (cellEqNum_iff k.1 0).mp h3
      have hkk : k = (Cell.num 0, c) := by
        obtain ⟨x, y⟩ := k
        simp_all
      rw [← ha, hkk]
  · intro c a h
    obtain ⟨k, _, hk⟩ := List.mem_filterMap.mp h
    unfold floorElemOfKey at hk
    split_ifs at hk with h1 h2 h3
    · simp only [Option.some.injEq, FloorElem.ground.injEq] at hk
      obtain ⟨hc, ha⟩ := hk
      have hk1 : k.1 = Cell.num 1 := (cellEqNum_iff k.1 1).mp h2
      have hkk : k = (Cell.num 1, c) := by
        obtain ⟨x, y⟩ := k
        simp_all
      rw [← ha, hkk]
    · simp at hk
  · intro c a h
    obtain ⟨k, _, hk⟩ := List.mem_filterMap.mp h
    unfold ceilElemOfKey at hk
    split_ifs at hk with h1 h2 h3
    · simp at hk
    · simp only [Option.some.injEq, CeilElem.ceiling.injEq] at hk
      obtain ⟨hc, ha⟩ := hk
      have hk1 : k.1 = Cell.num 0 := (cellEqNum_iff k.1 0).mp h3
      have hkk : k = (Cell.num 0, c) := by
        obtain ⟨x, y⟩ := k
        simp_all
      rw [← ha, hkk]
  · intro c a h
    obtain ⟨k, _, hk⟩ := List.mem_filterMap.mp h
    unfold ceilElemOfKey at hk
    split_ifs at hk with h1 h2 h3
    · simp only [Option.some.injEq, CeilElem.rooftop.injEq] at hk
      obtain ⟨hc, ha⟩ := hk
      have hk1 : k.1 = Cell.num 1 := (cellEqNum_iff k.1 1).mp h2
      have hkk : k = (Cell.num 1, c) := by
        obtain ⟨x, y⟩ := k
        simp_all
      rw [← ha, hkk]
    · simp at hk

/-- Witness for C2: one row with net area 10 and flag 0 produces a Floor
element of area 5, half of the group's summed net area. -/
theorem C2_half_areas_witness :
    FloorElem.floor (Cell.str "C") 5 ∈ floorElements [c2row]
    ∧ (5 : ℚ) = floorSum [c2row] (Cell.num 0, Cell.str "C") / 2 := by
  have hsum : floorSum [c2row] (Cell.num 0, Cell.str "C") = 10 := by
    show (10 : ℚ) + 0 = 10
    norm_num
  have hb1 : cellEqNum (Cell.num 0) 1 = false := by decide
  have hb0 : cellEqNum (Cell.num 0) 0 = true := by decide
  have h52 : (10 : ℚ) / 2 = 5 := by norm_num
  have helem : floorElemOfKey [c2row] (Cell.num 0, Cell.str "C")
      = some (FloorElem.floor (Cell.str "C") 5) := by
    simp [floorElemOfKey, hsum, hb1, hb0, h52]
  have hkmem : (Cell.num 0, Cell.str "C") ∈ floorKeys [c2row] := by decide
  have hmem : FloorElem.floor (Cell.str "C") 5 ∈ floorElements [c2row] :=
    List.mem_filterMap.mpr ⟨(Cell.num 0, Cell.str "C"), hkmem, helem⟩
  exact ⟨hmem, (C2_half_areas [c2row]).2.1 (Cell.str "C") 5 hmem⟩

/-- Claim C5: a floor (resp. ceiling) group with nonzero summed net area
whose flag is neither 0 nor 1 yields a diagnostic and no element, and a
group with zero summed net area yields a diagnostic and no element. -/
theorem C5_flag_and_zero_area_diags (rows : List Record) :
    (∀ k ∈ floorKeys rows,
      (floorSum rows k ≠ 0 → cellEqNum k.1 1 = false → cellEqNum k.1 0 = false →
        Diag.groundFloorFlagInvalid ∈ floorDiags rows ∧ floorElemOfKey rows k = none)
      ∧ (floorSum rows k = 0 →
        Diag.floorZeroArea k.1 k.2 ∈ floorDiags rows ∧ floorElemOfKey rows k = none))
    ∧ (∀ k ∈ ceilKeys rows,
      (ceilSum rows k ≠ 0 → cellEqNum k.1 1 = false → cellEqNum k.1 0 = false →
        Diag.rooftopFlagInvalid ∈ ceilDiags rows ∧ ceilElemOfKey rows k = none)
      ∧ (ceilSum rows k = 0 →
        Diag.ceilingZeroArea k.1 k.2 ∈ ceilDiags rows ∧ ceilElemOfKey rows k = none)) := by
  constructor
  · intro k hk
    refine ⟨fun hs h1 h0 => ⟨?_, by simp [floorElemOfKey, hs, h1, h0]⟩,
      fun hs => ⟨?_, by simp [floorElemOfKey, hs]⟩⟩
    · exact List.mem_filterMap.mpr ⟨k, hk, by simp [floorDiags, hs, h1, h0]⟩
    · exact List.mem_filterMap.mpr ⟨k, hk, by simp [floorDiags, hs]⟩
  · intro k hk
    refine ⟨fun hs h1 h0 => ⟨?_, by simp [ceilElemOfKey, hs, h1, h0]⟩,
      fun hs => ⟨?_, by simp [ceilElemOfKey, hs]⟩⟩
    · exact List.mem_filterMap.mpr ⟨k, hk, by simp [ceilDiags, hs, h1, h0]⟩
    · exact List.mem_filterMap.mpr ⟨k, hk, by simp [ceilDiags, hs]⟩

/-- Witness for C5 at the spec's scenario: IsGroundFloor = 2 with net area
10 yields the flag diagnostic and no floor or ground-floor element. -/
theorem C5_flag_and_zero_area_diags_witness :
    Diag.groundFloorFlagInvalid ∈ floorDiags [c5row]
    ∧ floorElemOfKey [c5row] (Cell.num 2, Cell.str "C") = none :=
  ((C5_flag_and_zero_area_diags [c5row]).1 (Cell.num 2, Cell.str "C")
    (by decide)).1 (by show (10 : ℚ) + 0 ≠ 0; norm_num) (by decide) (by decide)

/-- Claim C4: outer walls and windows are grouped per (orientation,
construction); a group with a string orientation is skipped with a
diagnostic, a group whose summed area is not positive is skipped, and every
other group yields exactly one element carrying the full summed area. -/
theorem C4_orientation_groups (rows : List Record) :
    (∀ k ∈ owKeys rows,
      (k.1.isStr = true →
        Diag.outerWallOrientationNotNumeric k.1 k.2 ∈ outerWallDiags rows
        ∧ owElemOfKey rows k = none)
      ∧ (k.1.isStr = false → owSum rows k ≤ 0 → owElemOfKey rows k = none)
      ∧ (k.1.isStr = false → 0 < owSum rows k →
        (outerWallElements rows).filter
            (fun e => (e.orientation, e.construction) == k)
          = [{ orientation := k.1, construction := k.2, tilt := 90,
               area := owSum rows k }]))
    ∧ (∀ k ∈ winKeys rows,
      (k.1.isStr = true →
        Diag.windowOrientationNotNumeric k.1 k.2 ∈ windowDiags rows
        ∧ winElemOfKey rows k = none)
      ∧ (k.1.isStr = false → winSum rows k ≤ 0 → winElemOfKey rows k = none)
      ∧ (k.1.isStr = false → 0 < winSum rows k →
        (windowElements rows).filter
            (fun e => (e.orientation, e.construction) == k)
          = [{ orientation := k.1, construction := k.2, tilt := 90,
               area := winSum rows k }])) := by
  constructor
  · intro k hk
    refine ⟨fun hs => ⟨?_, by simp [owElemOfKey, hs]⟩, ?_, ?_⟩
    · exact List.mem_filterMap.mpr ⟨k, hk, by simp [outerWallDiags, hs]⟩
    · intro hs hle
      simp [owElemOfKey, hs, not_lt.mpr hle]
    · intro hs hpos
      exact filter_filterMap_singleton (fun e => (e.orientation, e.construction))
        (owElemOfKey rows)
        (fun a e hae => by
          unfold owElemOfKey at hae
          split_ifs at hae with h1 h2
          simp only [Option.some.injEq] at hae
          subst hae
          rfl)
        (owKeys rows) (List.nodup_dedup _) k hk
        { orientation := k.1, construction := k.2, tilt := 90, area := owSum rows k }
        (by simp [owElemOfKey, hs, hpos])
  · intro k hk
    refine ⟨fun hs => ⟨?_, by simp [winElemOfKey, hs]⟩, ?_, ?_⟩
    · exact List.mem_filterMap.mpr ⟨k, hk, by simp [windowDiags, hs]⟩
    · intro hs hle
      simp [winElemOfKey, hs, not_lt.mpr hle]
    · intro hs hpos
      exact filter_filterMap_singleton (fun e => (e.orientation, e.construction))
        (winElemOfKey rows)
        (fun a e hae => by
          unfold winElemOfKey at hae
          split_ifs at hae with h1 h2
          simp only [Option.some.injEq] at hae
          subst hae
          rfl)
        (winKeys rows) (List.nodup_dedup _) k hk
        { orientation := k.1, construction := k.2, tilt := 90, area := winSum rows k }
        (by simp [winElemOfKey, hs, hpos])

/-- Witness for C4: a single row with orientation 90, construction `Brick`
and area 10 yields exactly one outer-wall element with the full sum. -/
theorem C4_orientation_groups_witness :
    (outerWallElements [c4row]).filter
        (fun e => (e.orientation, e.construction) == (Cell.num 90, Cell.str "Brick"))
      = [{ orientation := Cell.num 90, construction := Cell.str "Brick", tilt := 90,
           area := owSum [c4row] (Cell.num 90, Cell.str "Brick") }] :=
  ((C4_orientation_groups [c4row]).1 (Cell.num 90, Cell.str "Brick") (by decide)).2.2
    (by decide) (by show (0 : ℚ) < 10 + 0; norm_num)

/- ### Lemmas about present entries and usage lookup -/

lemma mem_addPresent (acc : List Cell) (y x : Cell) :
    x ∈ addPresent acc y ↔ x ∈ acc ∨ (x = y ∧ y.isNa = false) := by
  unfold addPresent
  split_ifs with h1 h2
  · constructor
    · exact Or.inl
    · rintro (h | ⟨rfl, _⟩)
      · exact h
      · exact h1
  · constructor
    · exact Or.inl
    · rintro (h | ⟨rfl, hna⟩)
      · exact h
      · rw [h2] at hna
        cases hna
  · simp only [Bool.not_eq_true] at h2
    simp [List.mem_append, h2]

lemma mem_foldl_addPresent (l : List Cell) :
    ∀ acc x, x ∈ l.foldl addPresent acc ↔ x ∈ acc ∨ (x ∈ l ∧ x.isNa = false) := by
  induction l with
  | nil => simp
  | cons y rest ih =>
    intro acc x
    rw [List.foldl_cons, ih, mem_addPresent]
    constructor
    · rintro ((h | ⟨rfl, hy⟩) | ⟨hx, hna⟩)
      · exact Or.inl h
      · exact Or.inr ⟨List.mem_cons_self _ _, hy⟩
      · exact Or.inr ⟨List.mem_cons_of_mem _ hx, hna⟩
    · rintro (h | ⟨hx, hna⟩)
      · exact Or.inl (Or.inl h)
      · rcases List.mem_cons.mp hx with rfl | h2
        · exact Or.inl (Or.inr ⟨rfl, hna⟩)
        · exact Or.inr ⟨h2, hna⟩

lemma mem_present_iff (l : List Cell) (x : Cell) :
    x ∈ get_list_of_present_entries l ↔ x ∈ l ∧ x.isNa = false := by
  unfold get_list_of_present_entries
  rw [mem_foldl_addPresent]
  simp

lemma lookupPairs_ok_fst {l : List Cell} {ps : List (Cell × String)}
    (h : lookupPairs l = Except.ok ps) : ps.map Prod.fst = l := by
  induction l generalizing ps with
  | nil =>
    simp only [lookupPairs, Except.ok.injEq] at h
    subst h
    rfl
  | cons u rest ih =>
    unfold lookupPairs at h
    cases hu : lookupUsageCell u with
    | none =>
      rw [hu] at h
      exact absurd h (by simp)
    | some v =>
      rw [hu] at h
      cases hrest : lookupPairs rest with
      | error e =>
        rw [hrest] at h
        exact absurd h (by simp)
      | ok ps' =>
        rw [hrest] at h
        simp only [Except.ok.injEq] at h
        subst h
        simp [ih hrest]

lemma lookupPairs_ok_prop {l : List Cell} {ps : List (Cell × String)}
    (h : lookupPairs l = Except.ok ps) :
    ∀ p ∈ ps, lookupUsageCell p.1 = some p.2 := by
  induction l generalizing ps with
  | nil =>
    simp only [lookupPairs, Except.ok.injEq] at h
    subst h
    simp
  | cons u rest ih =>
    unfold lookupPairs at h
    cases hu : lookupUsageCell u with
    | none =>
      rw [hu] at h
      exact absurd h (by simp)
    | some v =>
      rw [hu] at h
      cases hrest : lookupPairs rest with
      | error e =>
        rw [hrest] at h
        exact absurd h (by simp)
      | ok ps' =>
        rw [hrest] at h
        simp only [Except.ok.injEq] at h
        subst h
        intro p hp
        rcases List.mem_cons.mp hp with rfl | hp'
        · exact hu
        · exact ih hrest p hp'

/-- Claim C1 (amended): per cluster, a diagnostic naming the cluster is
emitted exactly when the number of qualifying records differs from 1;
every record of the cluster receives the last qualifying record's usage
(the source overwrites `main_usage` once per match, so the last one wins);
with no qualifying record the usage stays unchanged (undefined); and any
record whose resolved usage is missing receives the empty Zone label,
which is no canonical usage category. -/
theorem C1_cluster_usage (data : List Record) (c : Cell) (hc : c ∈ clusterKeys data) :
    (((clusterRows data c).filter qualifies).length ≠ 1 ↔
      Diag.clusterUsage c ∈ clusterUsageDiags data)
    ∧ (∀ r ∈ data, r.roomCluster = c →
        (resolveRecordUsage data r).roomClusterUsage
          = ((((clusterRows data c).filter qualifies).getLast?).map
              (fun q => q.usageType)).getD r.roomClusterUsage)
    ∧ (∀ out, mapUsagesStep (resolveUsage data) = Except.ok out →
        ∀ r ∈ out, r.roomClusterUsage.isNa = true → r.zone = Cell.str "") := by
  have hcna : c.isNa = false := by
    have h1 := List.mem_dedup.mp hc
    have h2 := (List.mem_filter.mp h1).2
    simpa using h2
  refine ⟨⟨?_, ?_⟩, ?_, ?_⟩
  · intro hne
    exact List.mem_filterMap.mpr ⟨c, hc, by rw [if_pos hne]⟩
  · intro hmem
    obtain ⟨c', hc', he⟩ := List.mem_filterMap.mp hmem
    by_cases h : ((clusterRows data c').filter qualifies).length ≠ 1
    · rw [if_pos h] at he
      simp only [Option.some.injEq, Diag.clusterUsage.injEq] at he
      subst he
      exact h
    · rw [if_neg h] at he
      exact absurd he (by simp)
  · intro r _ hrc
    unfold resolveRecordUsage
    rw [hrc]
    simp only [hcna, Bool.false_eq_true, if_false]
    cases hL : ((clusterRows data c).filter qualifies).getLast? with
    | none => simp
    | some q => simp
  · intro out hout r hr hna
    unfold mapUsagesStep at hout
    cases hlp : lookupPairs
        (get_list_of_present_entries
          ((resolveUsage data).map (fun r => r.roomClusterUsage))) with
    | error e =>
      rw [hlp] at hout
      exact absurd hout (by simp)
    | ok pairs =>
      rw [hlp] at hout
      simp only [Except.ok.injEq] at hout
      subst hout
      obtain ⟨r0, hr0, hr0e⟩ := List.mem_map.mp hr
      subst hr0e
      have hna0 : r0.roomClusterUsage.isNa = true := by
        unfold applyPairs at hna
        cases hf : pairs.find? (fun p => p.1 == r0.roomClusterUsage) with
        | none => rw [hf] at hna; exact hna
        | some p => rw [hf] at hna; exact hna
      unfold applyPairs
      cases hf : pairs.find? (fun p => p.1 == r0.roomClusterUsage) with
      | none => rfl
      | some p =>
        exfalso
        have hpmem := List.find?_some hf
        rw [beq_iff_eq] at hpmem
        have hpin := List.mem_of_find?_eq_some hf
        have hfst : p.1 ∈ pairs.map Prod.fst := List.mem_map.mpr ⟨p, hpin, rfl⟩
        rw [lookupPairs_ok_fst hlp] at hfst
        have := (mem_present_iff _ _).mp hfst
        rw [hpmem, hna0] at this
        exact absurd this.2 (by simp)

/-- Counterexample to claim C1 as stated: in a cluster with two qualifying
records (usages `Office` then `WC` in row order) every record of the
cluster ends with the last matching record's usage `WC`, not the first
one's `Office`. -/
theorem C1_last_match_wins :
    ((resolveUsage (prepare [c1r1, c1r2])).map (fun r => r.roomClusterUsage))
      = [Cell.str "WC", Cell.str "WC"]
    ∧ Cell.str "WC" ≠ Cell.str "Office" := by decide

/-- Witness for C1: the two-match cluster `R1` is reported. -/
theorem C1_cluster_usage_witness :
    Diag.clusterUsage (Cell.str "R1") ∈ clusterUsageDiags (prepare [c1r1, c1r2]) :=
  ((C1_cluster_usage (prepare [c1r1, c1r2]) (Cell.str "R1") (by decide)).1).mp (by decide)

lemma lookupPairs_error_of_missing {l : List Cell} {u : Cell}
    (hu : u ∈ l) (hmiss : lookupUsageCell u = none) :
    ∃ e, lookupPairs l = Except.error e ∧ lookupUsageCell e = none := by
  induction l with
  | nil => cases hu
  | cons v rest ih =>
    unfold lookupPairs
    cases hv : lookupUsageCell v with
    | none => exact ⟨v, rfl, hv⟩
    | some w =>
      have hu' : u ∈ rest := by
        rcases List.mem_cons.mp hu with rfl | h
        · rw [hv] at hmiss
          cases hmiss
        · exact h
      obtain ⟨e, he, hemiss⟩ := ih hu'
      rw [he]
      exact ⟨e, rfl, hemiss⟩

/-- Claim C7 (amended): a resolved usage label absent from
`usage_to_json_usage` raises an unhandled lookup failure (`KeyError`) that
aborts the whole zoning run before any zone assignment; no per-room report
is emitted and the remaining rooms are not processed. -/
theorem C7_unmapped_usage_aborts (data : List Record) (u : Cell)
    (hu : u ∈ get_list_of_present_entries
        ((resolveUsage (prepare data)).map (fun r => r.roomClusterUsage)))
    (hmiss : lookupUsageCell u = none) :
    ∃ e, zoning_example data = Except.error e ∧ lookupUsageCell e = none := by
  obtain ⟨e, he, hemiss⟩ := lookupPairs_error_of_missing hu hmiss
  refine ⟨e, ?_, hemiss⟩
  unfold zoning_example mapUsagesStep
  rw [he]

/-- Counterexample to claim C7 as stated: with rooms `R1` (usage `Gym`,
unmapped) and `R2` (usage `Office`, mapped) the pipeline returns the
lookup failure for `Gym` instead of excluding `R1` and continuing — the
whole run is aborted and no zoned table is produced. -/
theorem C7_unmapped_usage_cex :
    zoning_example [c7recGym, c7recOff] = Except.error (Cell.str "Gym") := by
  rfl

/-- Witness for C7 at the same input. -/
theorem C7_unmapped_usage_witness :
    ∃ e, zoning_example [c7recGym, c7recOff] = Except.error e
      ∧ lookupUsageCell e = none :=
  C7_unmapped_usage_aborts [c7recGym, c7recOff] (Cell.str "Gym") (by decide) (by decide)

/- ### Permutation stability of the aggregation -/

lemma nansumBy_perm (f : Record → Cell) {r1 r2 : List Record} (h : r1.Perm r2) :
    nansumBy f r1 = nansumBy f r2 :=
  List.Perm.sum_eq (List.Perm.map _ h)

lemma outerWallElements_perm {r1 r2 : List Record} (h : r1.Perm r2) :
    (outerWallElements r1).Perm (outerWallElements r2) := by
  have hfun : owElemOfKey r1 = owElemOfKey r2 := by
    funext k
    have hsum : owSum r1 k = owSum r2 k := nansumBy_perm _ (List.Perm.filter _ h)
    simp [owElemOfKey, owSum] at hsum ⊢
    rw [hsum]
  have hkeys : (owKeys r1).Perm (owKeys r2) :=
    List.Perm.dedup (List.Perm.filter _ (List.Perm.map _ h))
  rw [outerWallElements, outerWallElements, hfun]
  exact List.Perm.filterMap _ hkeys

lemma windowElements_perm {r1 r2 : List Record} (h : r1.Perm r2) :
    (windowElements r1).Perm (windowElements r2) := by
  have hfun : winElemOfKey r1 = winElemOfKey r2 := by
    funext k
    have hsum : winSum r1 k = winSum r2 k := nansumBy_perm _ (List.Perm.filter _ h)
    simp [winElemOfKey, winSum] at hsum ⊢
    rw [hsum]
  have hkeys : (winKeys r1).Perm (winKeys r2) :=
    List.Perm.dedup (List.Perm.filter _ (List.Perm.map _ h))
  rw [windowElements, windowElements, hfun]
  exact List.Perm.filterMap _ hkeys

lemma floorElements_perm {r1 r2 : List Record} (h : r1.Perm r2) :
    (floorElements r1).Perm (floorElements r2) := by
  have hfun : floorElemOfKey r1 = floorElemOfKey r2 := by
    funext k
    have hsum : floorSum r1 k = floorSum r2 k := nansumBy_perm _ (List.Perm.filter _ h)
    simp [floorElemOfKey, floorSum] at hsum ⊢
    rw [hsum]
  have hkeys : (floorKeys r1).Perm (floorKeys r2) :=
    List.Perm.dedup (List.Perm.filter _ (List.Perm.map _ h))
  rw [floorElements, floorElements, hfun]
  exact List.Perm.filterMap _ hkeys

lemma ceilElements_perm {r1 r2 : List Record} (h : r1.Perm r2) :
    (ceilElements r1).Perm (ceilElements r2) := by
  have hfun : ceilElemOfKey r1 = ceilElemOfKey r2 := by
    funext k
    have hsum : ceilSum r1 k = ceilSum r2 k := nansumBy_perm _ (List.Perm.filter _ h)
    simp [ceilElemOfKey, ceilSum] at hsum ⊢
    rw [hsum]
  have hkeys : (ceilKeys r1).Perm (ceilKeys r2) :=
    List.Perm.dedup (List.Perm.filter _ (List.Perm.map _ h))
  rw [ceilElements, ceilElements, hfun]
  exact List.Perm.filterMap _ hkeys

lemma innerWallElements_perm {r1 r2 : List Record} (h : r1.Perm r2) :
    (innerWallElements r1).Perm (innerWallElements r2) := by
  have hfun : iwElemOfKey r1 = iwElemOfKey r2 := by
    funext k
    have hsum : iwSum r1 k = iwSum r2 k := nansumBy_perm _ (List.Perm.filter _ h)
    simp [iwElemOfKey, iwSum] at hsum ⊢
    rw [hsum]
  have hkeys : (iwKeys r1).Perm (iwKeys r2) :=
    List.Perm.dedup (List.Perm.filter _ (List.Perm.map _ h))
  rw [innerWallElements, innerWallElements, hfun]
  exact List.Perm.filterMap _ hkeys

/- ### Permutation stability of usage resolution and mapping -/

lemma resolveRecordUsage_stable {dB dA : List Record} (hperm : dB.Perm dA)
    (hq : ∀ c ∈ clusterKeys dA, ((clusterRows dA c).filter qualifies).length ≤ 1)
    (r : Record) (hr : r ∈ dA) :
    resolveRecordUsage dB r = resolveRecordUsage dA r := by
  unfold resolveRecordUsage
  by_cases hna : r.roomCluster.isNa = true
  · rw [if_pos hna, if_pos hna]
  · rw [if_neg hna, if_neg hna]
    have hkey : r.roomCluster ∈ clusterKeys dA := by
      apply List.mem_dedup.mpr
      apply List.mem_filter.mpr
      refine ⟨List.mem_map.mpr ⟨r, hr, rfl⟩, ?_⟩
      simpa using hna
    have hle := hq _ hkey
    have hpf : ((clusterRows dB r.roomCluster).filter qualifies).Perm
        ((clusterRows dA r.roomCluster).filter qualifies) :=
      List.Perm.filter _ (List.Perm.filter _ hperm)
    rw [perm_eq_of_length_le_one hpf hle]

lemma resolveUsage_perm {dB dA : List Record} (hperm : dB.Perm dA)
    (hq : ∀ c ∈ clusterKeys dA, ((clusterRows dA c).filter qualifies).length ≤ 1) :
    (resolveUsage dB).Perm (resolveUsage dA) := by
  unfold resolveUsage
  have heq : dB.map (resolveRecordUsage dB) = dB.map (resolveRecordUsage dA) :=
    List.map_congr_left (fun r hr =>
      resolveRecordUsage_stable hperm hq r (hperm.mem_iff.mp hr))
  rw [heq]
  exact List.Perm.map _ hperm

lemma find?_pairs_eq {ps : List (Cell × String)}
    (hp : ∀ p ∈ ps, lookupUsageCell p.1 = some p.2) (u : Cell) :
    ps.find? (fun p => p.1 == u)
      = if u ∈ ps.map Prod.fst then (lookupUsageCell u).map (fun v => (u, v)) else none := by
  induction ps with
  | nil => simp
  | cons p rest ih =>
    by_cases hpu : p.1 = u
    · subst hpu
      rw [List.find?_cons_of_pos _ (by simp)]
      have hl := hp p (List.mem_cons_self _ _)
      rw [if_pos (by simp), hl]
      simp
    · rw [List.find?_cons_of_neg _ (by simp [hpu]),
        ih (fun q hq => hp q (List.mem_cons_of_mem _ hq))]
      have hmemiff : u ∈ (p :: rest).map Prod.fst ↔ u ∈ rest.map Prod.fst := by
        simp only [List.map_cons, List.mem_cons]
        constructor
        · rintro (h | h)
          · exact absurd h.symm hpu
          · exact h
        · exact Or.inr
      by_cases hu : u ∈ rest.map Prod.fst
      · rw [if_pos hu, if_pos (hmemiff.mpr hu)]
      · rw [if_neg hu, if_neg (fun h => hu (hmemiff.mp h))]

lemma applyPairs_congr {psB psA : List (Cell × String)}
    (hB : ∀ p ∈ psB, lookupUsageCell p.1 = some p.2)
    (hA : ∀ p ∈ psA, lookupUsageCell p.1 = some p.2)
    (hmem : ∀ u, u ∈ psB.map Prod.fst ↔ u ∈ psA.map Prod.fst) :
    applyPairs psB = applyPairs psA := by
  funext r
  unfold applyPairs
  rw [find?_pairs_eq hB, find?_pairs_eq hA]
  by_cases hu : r.roomClusterUsage ∈ psA.map Prod.fst
  · rw [if_pos ((hmem _).mpr hu), if_pos hu]
  · rw [if_neg (fun h => hu ((hmem _).mp h)), if_neg hu]

/-- Claim C9 (amended): provided every room cluster has at most one
qualifying usage record (otherwise the resolved usage depends on the row
order), permuting the input rows leaves every zone's total area and volume
and the multiset of every kind's created elements (hence every element's
aggregated area) unchanged. -/
theorem C9_perm_invariant (dataA dataB outA outB : List Record)
    (hperm : dataB.Perm dataA)
    (hq : ∀ c ∈ clusterKeys (prepare dataA),
        ((clusterRows (prepare dataA) c).filter qualifies).length ≤ 1)
    (hA : zoning_example dataA = Except.ok outA)
    (hB : zoning_example dataB = Except.ok outB) :
    outB.Perm outA
    ∧ ∀ z : Cell,
        tzArea (zoneRows outB z) = tzArea (zoneRows outA z)
        ∧ tzVolume (zoneRows outB z) = tzVolume (zoneRows outA z)
        ∧ (outerWallElements (zoneRows outB z)).Perm (outerWallElements (zoneRows outA z))
        ∧ (windowElements (zoneRows outB z)).Perm (windowElements (zoneRows outA z))
        ∧ (floorElements (zoneRows outB z)).Perm (floorElements (zoneRows outA z))
        ∧ (ceilElements (zoneRows outB z)).Perm (ceilElements (zoneRows outA z))
        ∧ (innerWallElements (zoneRows outB z)).Perm
            (innerWallElements (zoneRows outA z)) := by
  have hprep : (prepare dataB).Perm (prepare dataA) :=
    List.Perm.map _ (List.Perm.map _ hperm)
  have hres : (resolveUsage (prepare dataB)).Perm (resolveUsage (prepare dataA)) :=
    resolveUsage_perm hprep hq
  unfold zoning_example mapUsagesStep at hA hB
  cases hlpA : lookupPairs (get_list_of_present_entries
      ((resolveUsage (prepare dataA)).map (fun r => r.roomClusterUsage))) with
  | error e =>
    rw [hlpA] at hA
    exact absurd hA (by simp)
  | ok psA =>
    rw [hlpA] at hA
    simp only [Except.ok.injEq] at hA
    cases hlpB : lookupPairs (get_list_of_present_entries
        ((resolveUsage (prepare dataB)).map (fun r => r.roomClusterUsage))) with
    | error e =>
      rw [hlpB] at hB
      exact absurd hB (by simp)
    | ok psB =>
      rw [hlpB] at hB
      simp only [Except.ok.injEq] at hB
      subst hA
      subst hB
      have husages : ∀ u, u ∈ psB.map Prod.fst ↔ u ∈ psA.map Prod.fst := by
        intro u
        rw [lookupPairs_ok_fst hlpA, lookupPairs_ok_fst hlpB,
          mem_present_iff, mem_present_iff]
        constructor
        · rintro ⟨h1, h2⟩
          exact ⟨(List.Perm.mem_iff (List.Perm.map _ hres)).mp h1, h2⟩
        · rintro ⟨h1, h2⟩
          exact ⟨(List.Perm.mem_iff (List.Perm.map _ hres)).mpr h1, h2⟩
      have happly : applyPairs psB = applyPairs psA :=
        applyPairs_congr (lookupPairs_ok_prop hlpB) (lookupPairs_ok_prop hlpA) husages
      have hout : ((resolveUsage (prepare dataB)).map (applyPairs psB)).Perm
          ((resolveUsage (prepare dataA)).map (applyPairs psA)) := by
        rw [happly]
        exact List.Perm.map _ hres
      refine ⟨hout, fun z => ?_⟩
      have hz : (zoneRows ((resolveUsage (prepare dataB)).map (applyPairs psB)) z).Perm
          (zoneRows ((resolveUsage (prepare dataA)).map (applyPairs psA)) z) :=
        List.Perm.filter _ hout
      exact ⟨nansumBy_perm _ hz, List.Perm.sum_eq (List.Perm.map _ hz),
        outerWallElements_perm hz, windowElements_perm hz, floorElements_perm hz,
        ceilElements_perm hz, innerWallElements_perm hz⟩

/-- Counterexample to claim C9 as stated: swapping the two rows of cluster
`R` (qualifying usages `Office` and `WC`) flips the resolved usage from
`WC` to `Office`, moving the whole cluster to a different zone: the zone of
category `WC and sanitary rooms in non-residential buildings` has total
area 30 under one row order and 0 under the other. -/
theorem C9_perm_changes_zone_area :
    [c9cr2, c9cr1].Perm [c9cr1, c9cr2]
    ∧ (zoning_example [c9cr1, c9cr2]).toOption.map
        (fun out => tzArea (zoneRows out
          (Cell.str "WC and sanitary rooms in non-residential buildings")))
      ≠ (zoning_example [c9cr2, c9cr1]).toOption.map
        (fun out => tzArea (zoneRows out
          (Cell.str "WC and sanitary rooms in non-residential buildings"))) := by
  refine ⟨by decide, ?_⟩
  have h1 : (zoning_example [c9cr1, c9cr2]).toOption.map
      (fun out => tzArea (zoneRows out
        (Cell.str "WC and sanitary rooms in non-residential buildings")))
      = some ((10 : ℚ) + (20 + 0)) := rfl
  have h2 : (zoning_example [c9cr2, c9cr1]).toOption.map
      (fun out => tzArea (zoneRows out
        (Cell.str "WC and sanitary rooms in non-residential buildings")))
      = some (0 : ℚ) := rfl
  rw [h1, h2]
  intro h
  simp only [Option.some.injEq] at h
  norm_num at h

/-- Witness for C9: two single-record clusters with distinct usages; the
swapped table yields a permuted zoned table with equal zone areas. -/
theorem C9_perm_invariant_witness :
    c9outB.Perm c9outA
    ∧ tzArea (zoneRows c9outB (Cell.str "Meeting, Conference, seminar"))
      = tzArea (zoneRows c9outA (Cell.str "Meeting, Conference, seminar")) := by
  have h := C9_perm_invariant c9dataA c9dataB c9outA c9outB
    (by decide) (by decide) rfl rfl
  exact ⟨h.1, (h.2 (Cell.str "Meeting, Conference, seminar")).1⟩
